import Mathlib

/-!
# Apollo orchestration core — shallow embedding

A shallow embedding of the dispatch-and-execution orchestration core
(router `src/router.rs` and executor `services/apollo_executor.rs`) of the
Apollo repository, together with theorems settling the specification's
claims about it.

Modelling conventions:
* `f64` amounts, prices and confidences are modelled as `ℚ`.
* External collaborators (agents, venues, the profile store) are modelled
  as an explicit environment of fallible functions (`Except String _`),
  mirroring the Rust `Result`-returning clients.
* Side-effecting collaborator calls are additionally recorded in an event
  trace so that claims about which calls happen (and how often) are
  statable.
* Rust `String` is Lean `String`; `to_lowercase`, `starts_with` and
  `contains` are embedded as the character-list functions below (ASCII
  case folding, which covers every string the code and spec use).
-/

/-- ASCII lower-casing of one character, as done by `to_lowercase` on the
ASCII queries this code handles. -/
def lowerChar (c : Char) : Char :=
  if 65 ≤ c.toNat ∧ c.toNat ≤ 90 then Char.ofNat (c.toNat + 32) else c

/-- Embedding of Rust `str::to_lowercase`. -/
def toLowerStr (s : String) : String :=
  ⟨s.data.map lowerChar⟩

/-- Embedding of Rust `str::starts_with`. -/
def strStarts (s pat : String) : Bool :=
  pat.data.isPrefixOf s.data

/-- Does `needle` occur as a contiguous subsequence of the list? -/
def listHasSub (needle : List Char) : List Char → Bool
  | [] => needle.isEmpty
  | c :: rest => needle.isPrefixOf (c :: rest) || listHasSub needle rest

/-- Embedding of Rust `str::contains` (substring containment). -/
def strHasSub (s pat : String) : Bool :=
  listHasSub pat.data s.data

/-- The `Vec::dedup` tail worker: drop elements equal to the previous kept one. -/
def dedupAfter {α : Type} [DecidableEq α] (prev : α) : List α → List α
  | [] => []
  | a :: rest => if a = prev then dedupAfter prev rest else a :: dedupAfter a rest

/-- Embedding of Rust `Vec::dedup`: removes consecutive duplicates, keeping
the first element of each run. -/
def dedupConsecutive {α : Type} [DecidableEq α] : List α → List α
  | [] => []
  | a :: rest => a :: dedupAfter a rest

/-! ## Router data model (`src/router.rs`) -/

/-- The 41 specialized agents listed in `AgentType` (`src/router.rs`). -/
inductive AgentType
  | codeAssistant
  | codeEditor
  | emailAgent
  | calendarAgent
  | documentParseAgent
  | knowledgeAgent
  | sage
  | textAnalyzer
  | quant
  | visionAgent
  | audioAgent
  | reel
  | harmonia
  | ledgerAgent
  | deduct
  | juris
  | accord
  | closer
  | amplify
  | talent
  | grantAgent
  | shield
  | sentinel
  | webScraper
  | polyglot
  | lexicon
  | culturePulse
  | schemaAgent
  | routerAgent
  | tradingAgent
  | portfolioAnalyzer
  | riskManager
  | marketAnalyzer
  | strategyGeneratorAgent
  | executionAgent
  | healthAgent
  | travelAgent
  | fitnessAgent
  | nutritionAgent
  | sleepAgent
  | mentalHealthAgent
deriving DecidableEq

/-- The `AtlasContext` (`src/router.rs`). -/
structure AtlasContext where
  user_id : String
  entity_id : String
  available_data_types : List String
  privacy_levels : List String
  knowledge_base_url : String
  entity_type : String
deriving DecidableEq

/-- The `QueryRequest` (`src/router.rs`); the `Uuid` conversation id is an
opaque number here. -/
structure QueryRequest where
  query : String
  user_id : String
  entity_id : String
  context : AtlasContext
  conversation_id : Option Nat
deriving DecidableEq

/-- The `ExecutionStrategy` (`src/router.rs`). -/
inductive ExecutionStrategy
  | single
  | parallel
  | sequential
  | conditional
deriving DecidableEq

/-- The `AgentPlan` (`src/router.rs`). -/
structure AgentPlan where
  primary_agent : AgentType
  supporting_agents : List AgentType
  execution_strategy : ExecutionStrategy
  estimated_time_ms : Nat
deriving DecidableEq

/-- The `IntentType` (`src/router.rs`). -/
inductive IntentType
  | search
  | summarize
  | analyze
  | generate
  | execute
  | conversation
deriving DecidableEq

/-- The `QueryIntent` (`src/router.rs`). -/
structure QueryIntent where
  intent_type : IntentType
  data_types : List String
  entities : List String
  requires_atlas_data : Bool
deriving DecidableEq

/-- The `AgentResult` (`src/router.rs`); the opaque `serde_json::Value` payload
is modelled as a string, the `f32` confidence as `ℚ`. -/
structure AgentResult where
  agent : AgentType
  data : String
  confidence : ℚ
deriving DecidableEq

/-- The `ApolloResponse` (`src/router.rs`). -/
structure ApolloResponse where
  query_id : Nat
  answer : String
  data : List String
  summary : Option String
  suggestions : List String
  related_queries : List String
  agents_used : List AgentType
  execution_time_ms : Nat
  confidence : ℚ
deriving DecidableEq

/-! ## Router operations -/

/-- The `ApolloRouter::extract_data_types`: the context-declared data types
whose name occurs in the lowercased query, in declaration order. -/
def extract_data_types (query : String) (context : AtlasContext) : List String :=
  context.available_data_types.filter (fun dt => strHasSub (toLowerStr query) dt)

/-- The `ApolloRouter::extract_entities` (placeholder in the source: always empty). -/
def extract_entities (_query : String) : List String := []

/-- The `ApolloRouter::requires_atlas_data`. -/
def requires_atlas_data (query : String) : Bool :=
  strHasSub (toLowerStr query) "email" ||
  strHasSub (toLowerStr query) "meeting" ||
  strHasSub (toLowerStr query) "transaction" ||
  strHasSub (toLowerStr query) "document"

/-- The `ApolloRouter::analyze_intent` (infallible in the source: the `Result`
wrapper is always `Ok`). -/
def analyze_intent (query : String) (context : AtlasContext) : QueryIntent :=
  let query_lower := toLowerStr query
  let intent_type :=
    if strStarts query_lower "show" || strStarts query_lower "find" then
      IntentType.search
    else if strStarts query_lower "summarize" then IntentType.summarize
    else if strStarts query_lower "analyze" then IntentType.analyze
    else if strStarts query_lower "create" || strStarts query_lower "generate" then
      IntentType.generate
    else if strStarts query_lower "execute" || strStarts query_lower "trade" then
      IntentType.execute
    else IntentType.conversation
  { intent_type := intent_type
    data_types := extract_data_types query context
    entities := extract_entities query
    requires_atlas_data := requires_atlas_data query }

/-- The `ApolloRouter::select_primary_agent`: fixed priority chain over the
referenced data types. -/
def select_primary_agent (intent : QueryIntent) (_context : AtlasContext) : AgentType :=
  if intent.data_types.contains "email" then AgentType.emailAgent
  else if intent.data_types.contains "meeting" then AgentType.calendarAgent
  else if intent.data_types.contains "transaction" then AgentType.ledgerAgent
  else if intent.data_types.contains "document" then AgentType.documentParseAgent
  else if intent.data_types.contains "code" then AgentType.codeEditor
  else if intent.data_types.contains "trade" then AgentType.tradingAgent
  else if intent.data_types.contains "health" then AgentType.healthAgent
  else if intent.data_types.contains "fitness" then AgentType.fitnessAgent
  else AgentType.knowledgeAgent

/-- The per-data-type supporting-handler mapping inside
`ApolloRouter::select_supporting_agents` (the non-matching arm pushes nothing). -/
def supportingAgentFor (data_type : String) : Option AgentType :=
  if data_type = "email" then some AgentType.emailAgent
  else if data_type = "meeting" then some AgentType.calendarAgent
  else if data_type = "transaction" then some AgentType.ledgerAgent
  else if data_type = "document" then some AgentType.documentParseAgent
  else none

/-- The `ApolloRouter::select_supporting_agents`: map each referenced data type
to its handler, then `Vec::dedup` (adjacent duplicates only). -/
def select_supporting_agents (intent : QueryIntent) (_context : AtlasContext) : List AgentType :=
  dedupConsecutive (intent.data_types.filterMap supportingAgentFor)

/-- The `ApolloRouter::determine_strategy`. -/
def determine_strategy (intent : QueryIntent) (supporting_agents : List AgentType) :
    ExecutionStrategy :=
  if supporting_agents.isEmpty then ExecutionStrategy.single
  else
    match intent.intent_type with
    | IntentType.summarize => ExecutionStrategy.parallel
    | IntentType.analyze => ExecutionStrategy.sequential
    | _ => ExecutionStrategy.parallel

/-- The `ApolloRouter::select_agents` (infallible in the source). -/
def select_agents (intent : QueryIntent) (context : AtlasContext) : AgentPlan :=
  let primary_agent := select_primary_agent intent context
  let supporting_agents := select_supporting_agents intent context
  { primary_agent := primary_agent
    supporting_agents := supporting_agents
    execution_strategy := determine_strategy intent supporting_agents
    estimated_time_ms := 1000 }

/-! ## Multi-agent dispatch

`ApolloRouter::execute_agent` performs the opaque external handler call;
it is modelled as an environment `AgentType → Except String AgentResult`.
Dispatch additionally records a trace of which handlers were invoked and
whether the synthesizer ran, so call-occurrence claims are statable. -/

/-- Observable router events: one handler invocation, or one call of the
response synthesizer. -/
inductive RouterEvent
  | invoke (agent : AgentType)
  | synth
deriving DecidableEq

/-- An environment giving each external handler call's outcome. -/
def AgentEnv : Type := AgentType → Except String AgentResult

/-- The supporting-handler loop of `ApolloRouter::execute_agents` (both the
`Parallel` and the `Sequential` arm run this same loop): each call is made
with `?`, so the first error aborts the loop and propagates. -/
def runSupporting (env : AgentEnv) : List AgentType → Except String (List AgentResult) × List RouterEvent
  | [] => (Except.ok [], [])
  | a :: rest =>
    match env a with
    | Except.error e => (Except.error e, [RouterEvent.invoke a])
    | Except.ok r =>
      let t := runSupporting env rest
      match t.1 with
      | Except.error e => (Except.error e, RouterEvent.invoke a :: t.2)
      | Except.ok rs => (Except.ok (r :: rs), RouterEvent.invoke a :: t.2)

/-- The `ApolloRouter::execute_agents`: the primary handler is always invoked
first (its failure propagates with `?`); then, for `Parallel` and
`Sequential`, the supporting handlers run one at a time in plan order; the
other strategies skip supporting invocation. -/
def execute_agents (env : AgentEnv) (plan : AgentPlan) :
    Except String (List AgentResult) × List RouterEvent :=
  match env plan.primary_agent with
  | Except.error e => (Except.error e, [RouterEvent.invoke plan.primary_agent])
  | Except.ok primary_result =>
    match plan.execution_strategy with
    | ExecutionStrategy.parallel =>
      let t := runSupporting env plan.supporting_agents
      (t.1.map (fun rs => primary_result :: rs), RouterEvent.invoke plan.primary_agent :: t.2)
    | ExecutionStrategy.sequential =>
      let t := runSupporting env plan.supporting_agents
      (t.1.map (fun rs => primary_result :: rs), RouterEvent.invoke plan.primary_agent :: t.2)
    | _ => (Except.ok [primary_result], [RouterEvent.invoke plan.primary_agent])

/-- The `ApolloRouter::synthesize_response` (infallible aggregation). -/
def synthesize_response (query_id : Nat) (query : String) (results : List AgentResult)
    (_primary_agent : AgentType) (execution_time_ms : Nat) : ApolloResponse :=
  { query_id := query_id
    answer := "Processed query: " ++ query
    data := results.map (fun r => r.data)
    summary := some ("Used " ++ toString (results.map (fun r => r.agent)).length ++ " agents")
    suggestions := ["Refine search", "Show more details"]
    related_queries := ["Show similar results"]
    agents_used := results.map (fun r => r.agent)
    execution_time_ms := execution_time_ms
    confidence := 85 / 100 }

/-- The `ApolloRouter::route_query`: classify, select, dispatch, synthesize.
The ambient `query_id` (a fresh Uuid in the source) and elapsed time are
parameters. A `synth` event is recorded when the synthesizer runs. -/
def route_query (env : AgentEnv) (query_id elapsed_ms : Nat) (request : QueryRequest) :
    Except String ApolloResponse × List RouterEvent :=
  let intent := analyze_intent request.query request.context
  let plan := select_agents intent request.context
  let t := execute_agents env plan
  match t.1 with
  | Except.error e => (Except.error e, t.2)
  | Except.ok results =>
    (Except.ok (synthesize_response query_id request.query results plan.primary_agent elapsed_ms),
     t.2 ++ [RouterEvent.synth])

/-! ## Executor data model (`services/apollo_executor.rs`)

`StrategyAction` and `ApolloStrategy` are declared in the (out-of-tree)
`atlas_integration` module; their fields are embedded exactly as
constructed in `services/strategy_generator.rs` and consumed by the
executor. The strategy's `target_allocation` JSON object is modelled as a
string-keyed association list of rational numbers. -/

/-- The `StrategyAction`: one atomic instruction of a strategy. -/
structure StrategyAction where
  action_type : String
  asset_class : String
  symbol : String
  side : String
  amount : ℚ
  reason : String
  priority : Nat
deriving DecidableEq

/-- The `ApolloStrategy` structure as constructed by the strategy generator and consumed
by the executor. -/
structure ApolloStrategy where
  id : Nat
  strategy_id : String
  user_id : String
  goal_id : Option Nat
  name : String
  description : String
  target_allocation : List (String × ℚ)
  actions : List StrategyAction
  expected_annual_return : ℚ
  risk_score : ℚ
  time_horizon : String
  status : String
deriving DecidableEq

/-- The `FinancialGoal` (only the fields the executor reads). -/
structure FinancialGoal where
  id : Nat
  auto_execute : Bool
deriving DecidableEq

/-- The `CompleteFinancialProfile` (only the fields the executor reads). -/
structure CompleteFinancialProfile where
  user_id : String
  goals : List FinancialGoal
  active_strategies : List ApolloStrategy
deriving DecidableEq

/-- The crypto market order JSON built by
`ApolloExecutor::execute_crypto_action` (`user_id` is the hard-coded
placeholder from the source). -/
structure CryptoOrder where
  user_id : String
  symbol : String
  side : String
  amount_usd : ℚ
  order_type : String
deriving DecidableEq

/-- The `StockOrder` (`services/brokerage_client.rs` interface, as filled in by
`execute_stock_action`). -/
structure StockOrder where
  symbol : String
  side : String
  quantity : ℚ
  order_type : String
  limit_price : Option ℚ
  stop_price : Option ℚ
  time_in_force : String
deriving DecidableEq

/-- Classification of executor errors. The source raises distinct
`anyhow` errors on each of these paths; the constructors mirror the
spec's error taxonomy, with `venue` carrying the venue's error text. -/
inductive ExecError
  | unsupportedAssetClass (asset_class : String)
  | unsupportedAction (action_type : String)
  | venue (message : String)
deriving DecidableEq

/-- The `ExecutedAction`. -/
structure ExecutedAction where
  action : StrategyAction
  result_id : String
  executed_at : String
  executed_price : Option ℚ
deriving DecidableEq

/-- The `FailedAction` (the error is kept classified rather than stringified). -/
structure FailedAction where
  action : StrategyAction
  error : ExecError
  failed_at : String
deriving DecidableEq

/-- The `ExecutionResult`. -/
structure ExecutionResult where
  strategy_id : String
  user_id : String
  executed : List ExecutedAction
  failed : List FailedAction
  total_executed : Nat
  total_failed : Nat
  execution_time_seconds : ℚ
deriving DecidableEq

/-- Observable executor events: each side-effecting collaborator call. -/
inductive ExecEvent
  | generateStrategy (user_id : String)
  | markExecuting (strategy_id : String)
  | deltOrder (order : CryptoOrder)
  | brokerageOrder (order : StockOrder)
  | deltBreed (symbol : String)
  | deltBuyNft (symbol : String) (amount : ℚ)
  | deltLockCollateral (symbol : String)
  | completeStrategy (strategy_id : String)
  | updateGoalProgress (goal_id : Nat) (new_value : ℚ) (pct : ℚ)
deriving DecidableEq

/-- Outcomes of every external collaborator call the executor makes, plus
the ambient clock values it reads. -/
structure ExecEnv where
  generateStrategy : String → Except String ApolloStrategy
  markExecuting : String → Except String Unit
  completeStrategy : String → Except String Unit
  updateGoalProgress : Nat → ℚ → ℚ → Except String Unit
  deltPlaceOrder : CryptoOrder → Except String String
  brokeragePlaceOrder : StockOrder → Except String String
  deltBreed : String → Except String String
  deltBuyNft : String → ℚ → Except String String
  deltLockCollateral : String → Except String String
  getPortfolioValue : String → Except String ℚ
  getTotalValue : Except String ℚ
  getCompleteProfile : String → Except String CompleteFinancialProfile
  now : String
  elapsed : ℚ

/-! ## Executor operations -/

/-- The `ApolloExecutor::execute_crypto_action`: market order via Delt. -/
def execute_crypto_action (env : ExecEnv) (a : StrategyAction) :
    Except ExecError String × List ExecEvent :=
  let order : CryptoOrder :=
    { user_id := "user123", symbol := a.symbol, side := a.side,
      amount_usd := a.amount, order_type := "market" }
  match env.deltPlaceOrder order with
  | Except.ok tx_hash => (Except.ok tx_hash, [ExecEvent.deltOrder order])
  | Except.error e => (Except.error (ExecError.venue e), [ExecEvent.deltOrder order])

/-- The `ApolloExecutor::execute_stock_action`: convert the USD amount to a
share quantity at the hard-coded $100/share reference price, then place a
market day order at the brokerage. -/
def execute_stock_action (env : ExecEnv) (a : StrategyAction) :
    Except ExecError String × List ExecEvent :=
  let quantity := a.amount / 100
  let order : StockOrder :=
    { symbol := a.symbol, side := a.side, quantity := quantity,
      order_type := "market", limit_price := none, stop_price := none,
      time_in_force := "day" }
  match env.brokeragePlaceOrder order with
  | Except.ok order_id => (Except.ok order_id, [ExecEvent.brokerageOrder order])
  | Except.error e => (Except.error (ExecError.venue e), [ExecEvent.brokerageOrder order])

/-- The `ApolloExecutor::execute_nft_action`: dispatch on the action kind;
unknown kinds fail before any venue call. -/
def execute_nft_action (env : ExecEnv) (a : StrategyAction) :
    Except ExecError String × List ExecEvent :=
  if a.action_type = "breed" then
    match env.deltBreed a.symbol with
    | Except.ok r => (Except.ok r, [ExecEvent.deltBreed a.symbol])
    | Except.error e => (Except.error (ExecError.venue e), [ExecEvent.deltBreed a.symbol])
  else if a.action_type = "buy" then
    match env.deltBuyNft a.symbol a.amount with
    | Except.ok r => (Except.ok r, [ExecEvent.deltBuyNft a.symbol a.amount])
    | Except.error e => (Except.error (ExecError.venue e), [ExecEvent.deltBuyNft a.symbol a.amount])
  else if a.action_type = "lock_collateral" then
    match env.deltLockCollateral a.symbol with
    | Except.ok r => (Except.ok r, [ExecEvent.deltLockCollateral a.symbol])
    | Except.error e => (Except.error (ExecError.venue e), [ExecEvent.deltLockCollateral a.symbol])
  else (Except.error (ExecError.unsupportedAction a.action_type), [])

/-- The `ApolloExecutor::execute_action`: dispatch on the asset class; unknown
classes fail before any venue call. -/
def execute_action (env : ExecEnv) (a : StrategyAction) :
    Except ExecError String × List ExecEvent :=
  if a.asset_class = "crypto" then execute_crypto_action env a
  else if a.asset_class = "stocks" then execute_stock_action env a
  else if a.asset_class = "nft" then execute_nft_action env a
  else (Except.error (ExecError.unsupportedAssetClass a.asset_class), [])

/-- The per-action loop of `ApolloExecutor::execute_strategy`: each action
gets exactly one outcome and the loop always continues to the next action. -/
def execute_actions_loop (env : ExecEnv) :
    List StrategyAction → List ExecutedAction × List FailedAction × List ExecEvent
  | [] => ([], [], [])
  | a :: rest =>
    let r := execute_action env a
    let t := execute_actions_loop env rest
    match r.1 with
    | Except.ok result_id =>
      ({ action := a, result_id := result_id, executed_at := env.now,
         executed_price := none } :: t.1, t.2.1, r.2 ++ t.2.2)
    | Except.error e =>
      (t.1, { action := a, error := e, failed_at := env.now } :: t.2.1, r.2 ++ t.2.2)

/-- The `ApolloExecutor::execute_strategy`: mark executing in Atlas (`?`), run
every action, and return the aggregate report. -/
def execute_strategy (env : ExecEnv) (strategy : ApolloStrategy) :
    Except String ExecutionResult × List ExecEvent :=
  match env.markExecuting strategy.strategy_id with
  | Except.error e => (Except.error e, [ExecEvent.markExecuting strategy.strategy_id])
  | Except.ok _ =>
    let t := execute_actions_loop env strategy.actions
    (Except.ok
      { strategy_id := strategy.strategy_id
        user_id := strategy.user_id
        executed := t.1
        failed := t.2.1
        total_executed := t.1.length
        total_failed := t.2.1.length
        execution_time_seconds := env.elapsed },
     ExecEvent.markExecuting strategy.strategy_id :: t.2.2)

/-- The `ApolloExecutor::calculate_new_portfolio_value` (placeholder constant
in the source). -/
def calculate_new_portfolio_value (_result : ExecutionResult) : ℚ := 150000

/-- The `ApolloExecutor::report_results`: complete the strategy in Atlas, then
(if a goal is linked) push a goal-progress update. -/
def report_results (env : ExecEnv) (strategy : ApolloStrategy) (result : ExecutionResult) :
    Except String Unit × List ExecEvent :=
  match env.completeStrategy strategy.strategy_id with
  | Except.error e => (Except.error e, [ExecEvent.completeStrategy strategy.strategy_id])
  | Except.ok _ =>
    match strategy.goal_id with
    | none => (Except.ok (), [ExecEvent.completeStrategy strategy.strategy_id])
    | some goal_id =>
      let new_value := calculate_new_portfolio_value result
      let pct := new_value / ((strategy.target_allocation.lookup "total").getD 1000000) * 100
      match env.updateGoalProgress goal_id new_value pct with
      | Except.error e =>
        (Except.error e,
         [ExecEvent.completeStrategy strategy.strategy_id,
          ExecEvent.updateGoalProgress goal_id new_value pct])
      | Except.ok _ =>
        (Except.ok (),
         [ExecEvent.completeStrategy strategy.strategy_id,
          ExecEvent.updateGoalProgress goal_id new_value pct])

/-- The `ApolloExecutor::process_user`: generate a strategy, execute it, report
the results (each step's failure propagates with `?`). -/
def process_user (env : ExecEnv) (user_id : String) :
    Except String ExecutionResult × List ExecEvent :=
  match env.generateStrategy user_id with
  | Except.error e => (Except.error e, [ExecEvent.generateStrategy user_id])
  | Except.ok strategy =>
    let t := execute_strategy env strategy
    match t.1 with
    | Except.error e => (Except.error e, ExecEvent.generateStrategy user_id :: t.2)
    | Except.ok result =>
      let t2 := report_results env strategy result
      match t2.1 with
      | Except.error e => (Except.error e, ExecEvent.generateStrategy user_id :: (t.2 ++ t2.2))
      | Except.ok _ => (Except.ok result, ExecEvent.generateStrategy user_id :: (t.2 ++ t2.2))

/-- The `ApolloExecutor::calculate_drift`: absolute difference of the two
`"crypto"` entries only (missing entries default to 0). -/
def calculate_drift (current target : List (String × ℚ)) : ℚ :=
  let current_crypto := (current.lookup "crypto").getD 0
  let target_crypto := (target.lookup "crypto").getD 0
  |current_crypto - target_crypto|

/-- The `ApolloExecutor::monitor_and_rebalance`: one rebalance tick. Reads live
venue values, compares the current crypto fraction with the first active
strategy's target, and when drift exceeds 5% generates a rebalance
strategy, executing it only if some goal has auto-execute enabled. -/
def monitor_and_rebalance (env : ExecEnv) (user_id : String) :
    Except String Unit × List ExecEvent :=
  match env.getPortfolioValue user_id with
  | Except.error e => (Except.error e, [])
  | Except.ok crypto_value =>
    match env.getTotalValue with
    | Except.error e => (Except.error e, [])
    | Except.ok stock_value =>
      let total := crypto_value + stock_value
      let current : List (String × ℚ) :=
        [("crypto", crypto_value / total), ("stocks", stock_value / total)]
      match env.getCompleteProfile user_id with
      | Except.error e => (Except.error e, [])
      | Except.ok profile =>
        match profile.active_strategies.head? with
        | none => (Except.ok (), [])
        | some active_strategy =>
          let drift := calculate_drift current active_strategy.target_allocation
          if drift > 5 / 100 then
            match env.generateStrategy user_id with
            | Except.error e => (Except.error e, [ExecEvent.generateStrategy user_id])
            | Except.ok rebalance_strategy =>
              if profile.goals.any (fun g => g.auto_execute) then
                let t := execute_strategy env rebalance_strategy
                match t.1 with
                | Except.error e => (Except.error e, ExecEvent.generateStrategy user_id :: t.2)
                | Except.ok _ => (Except.ok (), ExecEvent.generateStrategy user_id :: t.2)
              else (Except.ok (), [ExecEvent.generateStrategy user_id])
          else (Except.ok (), [])

/-- Is the event a `mark_executing` profile-store call? -/
def isMarkEvent : ExecEvent → Bool
  | ExecEvent.markExecuting _ => true
  | _ => false

/-- Is the event a `complete_strategy` profile-store call? -/
def isCompleteEvent : ExecEvent → Bool
  | ExecEvent.completeStrategy _ => true
  | _ => false

/-- Number of `mark_executing` calls in a trace. -/
def countMark (tr : List ExecEvent) : Nat := tr.countP isMarkEvent

/-- Number of `complete_strategy` calls in a trace. -/
def countComplete (tr : List ExecEvent) : Nat := tr.countP isCompleteEvent

/-! ## Concrete sample data for witnesses and counterexamples -/

/-- Context of the spec's "show my transactions" scenario. -/
def ctxC4 : AtlasContext :=
  { user_id := "u1", entity_id := "e1",
    available_data_types := ["transaction", "email"],
    privacy_levels := [], knowledge_base_url := "", entity_type := "Personal" }

/-- A context whose declared data-domain list repeats a domain
non-adjacently. -/
def ctxDup : AtlasContext :=
  { user_id := "u1", entity_id := "e1",
    available_data_types := ["email", "transaction", "email"],
    privacy_levels := [], knowledge_base_url := "", entity_type := "Personal" }

/-- A context declaring no data domains. -/
def ctxEmpty : AtlasContext :=
  { user_id := "u1", entity_id := "e1", available_data_types := [],
    privacy_levels := [], knowledge_base_url := "", entity_type := "Personal" }

/-- A plain conversational request. -/
def reqHello : QueryRequest :=
  { query := "hello", user_id := "u1", entity_id := "e1",
    context := ctxEmpty, conversation_id := none }

/-- A successful mock handler result. -/
def okResult (a : AgentType) : AgentResult :=
  { agent := a, data := "payload", confidence := 8 / 10 }

/-- An agent environment in which every handler fails. -/
def envFail : AgentEnv := fun _ => Except.error "agent down"

/-- An agent environment in which only the calendar handler fails. -/
def envCalDown : AgentEnv := fun a =>
  if a = AgentType.calendarAgent then Except.error "calendar agent down"
  else Except.ok (okResult a)

/-- A dispatch plan with one supporting handler. -/
def planOneSupport : AgentPlan :=
  { primary_agent := AgentType.emailAgent,
    supporting_agents := [AgentType.calendarAgent],
    execution_strategy := ExecutionStrategy.parallel, estimated_time_ms := 1000 }

/-- A dispatch plan with two supporting handlers. -/
def planTwoSupport : AgentPlan :=
  { primary_agent := AgentType.ledgerAgent,
    supporting_agents := [AgentType.emailAgent, AgentType.calendarAgent],
    execution_strategy := ExecutionStrategy.parallel, estimated_time_ms := 1000 }

/-- A crypto buy action. -/
def actCrypto : StrategyAction :=
  { action_type := "buy", asset_class := "crypto", symbol := "BTC", side := "buy",
    amount := 100, reason := "Increase crypto exposure", priority := 2 }

/-- An equity buy action. -/
def actStock : StrategyAction :=
  { action_type := "buy", asset_class := "stocks", symbol := "SPY", side := "buy",
    amount := 1000, reason := "Rebalance to target allocation", priority := 1 }

/-- An action with the unrecognized asset class of the spec's scenario. -/
def actBond : StrategyAction :=
  { action_type := "buy", asset_class := "bond", symbol := "TLT", side := "buy",
    amount := 500, reason := "Diversify", priority := 3 }

/-- A collectible action with an unrecognized action kind. -/
def actNftStake : StrategyAction :=
  { action_type := "stake", asset_class := "nft", symbol := "WTF-1", side := "buy",
    amount := 10, reason := "Stake collectible", priority := 4 }

/-- A two-action strategy whose second action has an unknown asset class. -/
def stratW : ApolloStrategy :=
  { id := 0, strategy_id := "s1", user_id := "u1", goal_id := none,
    name := "AI-Generated Portfolio Rebalancing", description := "",
    target_allocation := [("crypto", 6 / 10), ("stocks", 4 / 10), ("total", 1000000)],
    actions := [actCrypto, actBond],
    expected_annual_return := 7 / 100, risk_score := 5, time_horizon := "3.0 years",
    status := "generated" }

/-- An empty rebalance strategy returned by the generator. -/
def stratReb : ApolloStrategy :=
  { id := 0, strategy_id := "reb1", user_id := "u1", goal_id := none,
    name := "AI-Generated Portfolio Rebalancing", description := "",
    target_allocation := [("crypto", 0), ("stocks", 1)],
    actions := [],
    expected_annual_return := 7 / 100, risk_score := 5, time_horizon := "3.0 years",
    status := "generated" }

/-- A profile with auto-execute enabled and `stratReb` active (its target
crypto weight 0 differs from the current weight). -/
def profAuto : CompleteFinancialProfile :=
  { user_id := "u1", goals := [{ id := 1, auto_execute := true }],
    active_strategies := [stratReb] }

/-- A strategy targeting a 10% crypto weight. -/
def stratBoundary : ApolloStrategy :=
  { stratReb with target_allocation := [("crypto", 1 / 10), ("stocks", 9 / 10)] }

/-- A profile whose single active strategy targets a 10% crypto weight. -/
def profBoundary : CompleteFinancialProfile :=
  { user_id := "u1", goals := [{ id := 1, auto_execute := true }],
    active_strategies := [stratBoundary] }

/-- An executor environment in which every collaborator call succeeds. -/
def envOk : ExecEnv :=
  { generateStrategy := fun _ => Except.ok stratW,
    markExecuting := fun _ => Except.ok (),
    completeStrategy := fun _ => Except.ok (),
    updateGoalProgress := fun _ _ _ => Except.ok (),
    deltPlaceOrder := fun _ => Except.ok "0xtx",
    brokeragePlaceOrder := fun _ => Except.ok "ord1",
    deltBreed := fun _ => Except.ok "child1",
    deltBuyNft := fun _ _ => Except.ok "0xbuy",
    deltLockCollateral := fun _ => Except.ok "pos1",
    getPortfolioValue := fun _ => Except.ok 1,
    getTotalValue := Except.ok 1,
    getCompleteProfile := fun _ => Except.ok profAuto,
    now := "2026-01-01T00:00:00Z",
    elapsed := 2 }

/-- The `envOk` steered to the auto-execute rebalance path (drift 1/2). -/
def envAuto : ExecEnv := { envOk with generateStrategy := fun _ => Except.ok stratReb }

/-- The `envOk` steered to a tick whose drift is exactly the 5% boundary:
crypto weight 1/20 against a 2/20 target. -/
def envBoundary : ExecEnv :=
  { envOk with getTotalValue := Except.ok 19,
               getCompleteProfile := fun _ => Except.ok profBoundary }

/-- The crypto order `execute_crypto_action` builds for `actCrypto`. -/
def orderCrypto : CryptoOrder :=
  { user_id := "user123", symbol := "BTC", side := "buy",
    amount_usd := 100, order_type := "market" }

/-- The stock order `execute_stock_action` builds for `actStock`. -/
def orderStock : StockOrder :=
  { symbol := "SPY", side := "buy", quantity := 1000 / 100, order_type := "market",
    limit_price := none, stop_price := none, time_in_force := "day" }

/-- The execution report `execute_strategy envOk stratW` produces. -/
def resultW : ExecutionResult :=
  { strategy_id := "s1", user_id := "u1",
    executed := [{ action := actCrypto, result_id := "0xtx",
                   executed_at := "2026-01-01T00:00:00Z", executed_price := none }],
    failed := [{ action := actBond, error := ExecError.unsupportedAssetClass "bond",
                 failed_at := "2026-01-01T00:00:00Z" }],
    total_executed := 1, total_failed := 1, execution_time_seconds := 2 }

/-- The trace `execute_strategy envOk stratW` produces. -/
def traceW : List ExecEvent :=
  [ExecEvent.markExecuting "s1", ExecEvent.deltOrder orderCrypto]

/-- The trace `process_user envOk "u1"` produces. -/
def tracePU : List ExecEvent :=
  [ExecEvent.generateStrategy "u1", ExecEvent.markExecuting "s1",
   ExecEvent.deltOrder orderCrypto, ExecEvent.completeStrategy "s1"]

/-! ## Helper lemmas -/

/-- The head of `dedupAfter prev l` is never `prev`. -/
theorem dedupAfter_head_ne {α : Type} [DecidableEq α] (prev : α) (l : List α) :
    ∀ x ∈ (dedupAfter prev l).head?, x ≠ prev := by
  induction l generalizing prev with
  | nil => simp [dedupAfter]
  | cons a rest ih =>
    by_cases h : a = prev
    · simpa [dedupAfter, h] using ih prev
    · simp [dedupAfter, h]

/-- The list `dedupAfter prev l` has no two adjacent equal elements. -/
theorem dedupAfter_chain {α : Type} [DecidableEq α] (prev : α) (l : List α) :
    List.Chain' (fun a b => a ≠ b) (dedupAfter prev l) := by
  induction l generalizing prev with
  | nil => simp [dedupAfter]
  | cons a rest ih =>
    by_cases h : a = prev
    · simpa [dedupAfter, h] using ih prev
    · rw [dedupAfter, if_neg h, List.chain'_cons']
      exact ⟨fun y hy => (dedupAfter_head_ne a rest y hy).symm, ih a⟩

/-- The result of `Vec::dedup` has no two adjacent equal elements. -/
theorem dedupConsecutive_chain {α : Type} [DecidableEq α] (l : List α) :
    List.Chain' (fun a b => a ≠ b) (dedupConsecutive l) := by
  cases l with
  | nil => simp [dedupConsecutive]
  | cons a rest =>
    rw [dedupConsecutive, List.chain'_cons']
    exact ⟨fun y hy => (dedupAfter_head_ne a rest y hy).symm, dedupAfter_chain a rest⟩

/-! ## Claim theorems -/

/-- C4 (counterexample): on the query "show my transactions" with declared
domains ["transaction", "email"], the selected plan does NOT have an empty
supporting-handler list with strategy `Single`, contrary to the claim. -/
theorem show_transactions_single_cex :
    ¬ ((select_agents (analyze_intent "show my transactions" ctxC4) ctxC4).supporting_agents = []
       ∧ (select_agents (analyze_intent "show my transactions" ctxC4) ctxC4).execution_strategy
         = ExecutionStrategy.single) := by
  decide

/-- C4 (amended): on the query "show my transactions" with declared domains
["transaction", "email"], classification yields intent `Search` with
referenced domains ["transaction"], and selection yields primary handler
`LedgerAgent` with supporting handlers [LedgerAgent] (the code does not
exclude the primary from the supporting set) and strategy `Parallel` (the
supporting list being nonempty, `Single` is not chosen). -/
theorem show_transactions_scenario :
    analyze_intent "show my transactions" ctxC4 =
      { intent_type := IntentType.search, data_types := ["transaction"],
        entities := [], requires_atlas_data := true }
    ∧ select_agents (analyze_intent "show my transactions" ctxC4) ctxC4 =
      { primary_agent := AgentType.ledgerAgent,
        supporting_agents := [AgentType.ledgerAgent],
        execution_strategy := ExecutionStrategy.parallel,
        estimated_time_ms := 1000 } := by
  constructor
  · decide
  · decide

/-- C5 (counterexample): the supporting-handler list can contain the
primary handler (query "show my transactions"), and can contain non-adjacent
duplicate handlers (a context whose declared domain list repeats "email"
around "transaction"), contrary to the claim. -/
theorem supporting_agents_dup_cex :
    select_primary_agent (analyze_intent "show my transactions" ctxC4) ctxC4
      ∈ select_supporting_agents (analyze_intent "show my transactions" ctxC4) ctxC4
    ∧ ¬ (select_supporting_agents (analyze_intent "show email and transaction data" ctxDup) ctxDup).Nodup := by
  constructor
  · decide
  · decide

/-- C5 (amended): the supporting-handler list never contains two ADJACENT
equal handler identifiers (`Vec::dedup` removes only consecutive
duplicates); the primary handler is not excluded from it, and non-adjacent
duplicates can remain. -/
theorem supporting_agents_no_adjacent_dup (intent : QueryIntent) (context : AtlasContext) :
    List.Chain' (fun a b => a ≠ b) (select_supporting_agents intent context) :=
  dedupConsecutive_chain _

/-- The supporting-handler loop aborts at the first failing handler: every
earlier handler succeeded, so the loop reaches the failing one, invokes it,
propagates its error, and never reaches the handlers after it. -/
theorem runSupporting_abort (env : AgentEnv) (pre post : List AgentType) (a : AgentType)
    (e : String) (hpre : ∀ b ∈ pre, ∃ r, env b = Except.ok r)
    (ha : env a = Except.error e) :
    runSupporting env (pre ++ a :: post) =
      (Except.error e, pre.map RouterEvent.invoke ++ [RouterEvent.invoke a]) := by
  induction pre with
  | nil => simp [runSupporting, ha]
  | cons b bs ih =>
    obtain ⟨r, hr⟩ := hpre b (by simp)
    have hrec := ih (fun c hc => hpre c (by simp [hc]))
    simp [runSupporting, hr, hrec]

/-- C2 (counterexample): with the primary handler succeeding and the single
supporting handler failing under the `Parallel` strategy, `execute_agents`
itself returns the error — the supporting failure is not isolated, contrary
to the claim. -/
theorem supporting_failure_dispatch_cex :
    (execute_agents envCalDown planOneSupport).1 = Except.error "calendar agent down" := rfl

/-- C2 (amended): a supporting handler's invocation failure ABORTS the
dispatch: under the `Parallel` or `Sequential` strategy, once every earlier
supporting handler succeeded, the failing handler's error becomes the
return value of `execute_agents` (so `dispatch` fails outright), the
handlers after it are never invoked, and no result list is produced. -/
theorem supporting_failure_aborts (env : AgentEnv) (plan : AgentPlan)
    (pre post : List AgentType) (a : AgentType) (e : String) (pr : AgentResult)
    (hstrat : plan.execution_strategy = ExecutionStrategy.parallel
      ∨ plan.execution_strategy = ExecutionStrategy.sequential)
    (hsup : plan.supporting_agents = pre ++ a :: post)
    (hpr : env plan.primary_agent = Except.ok pr)
    (hpre : ∀ b ∈ pre, ∃ r, env b = Except.ok r)
    (ha : env a = Except.error e) :
    execute_agents env plan =
      (Except.error e,
       RouterEvent.invoke plan.primary_agent ::
         (pre.map RouterEvent.invoke ++ [RouterEvent.invoke a])) := by
  have hrun := runSupporting_abort env pre post a e hpre ha
  unfold execute_agents
  rw [hpr]
  rcases hstrat with h | h <;> rw [h] <;> rw [hsup, hrun] <;> rfl

/-- C2 (amended) witness at a concrete input: primary `LedgerAgent` and
supporting handlers [EmailAgent, CalendarAgent] where only the calendar
handler fails. -/
theorem supporting_failure_aborts_witness :
    execute_agents envCalDown planTwoSupport =
      (Except.error "calendar agent down",
       RouterEvent.invoke AgentType.ledgerAgent ::
         ([AgentType.emailAgent].map RouterEvent.invoke ++
          [RouterEvent.invoke AgentType.calendarAgent])) :=
  supporting_failure_aborts envCalDown planTwoSupport
    [AgentType.emailAgent] [] AgentType.calendarAgent "calendar agent down"
    (okResult AgentType.ledgerAgent) (Or.inl rfl) rfl rfl
    (by intro b hb
        simp only [List.mem_singleton] at hb
        exact ⟨okResult AgentType.emailAgent, by rw [hb]; rfl⟩)
    rfl

/-- C7: if the primary handler's invocation fails, `route_query` returns
that error and the response synthesizer is never called. -/
theorem primary_failure_propagates (env : AgentEnv) (query_id elapsed_ms : Nat)
    (request : QueryRequest) (e : String)
    (h : env (select_agents (analyze_intent request.query request.context)
                request.context).primary_agent = Except.error e) :
    (route_query env query_id elapsed_ms request).1 = Except.error e
    ∧ RouterEvent.synth ∉ (route_query env query_id elapsed_ms request).2 := by
  simp only [route_query, execute_agents]
  rw [h]
  simp

/-- C7 witness at a concrete input: every handler fails; on the query
"hello" the primary handler is the knowledge fallback, whose failure is
returned by `route_query` with no synthesis. -/
theorem primary_failure_propagates_witness :
    (route_query envFail 7 5 reqHello).1 = Except.error "agent down"
    ∧ RouterEvent.synth ∉ (route_query envFail 7 5 reqHello).2 :=
  primary_failure_propagates envFail 7 5 reqHello "agent down" rfl

/-- C10: dispatching any plan under the `Parallel` strategy is behaviorally
identical to dispatching it under the `Sequential` strategy — identical
result lists and identical invocation traces — because both arms of
`execute_agents` run the same one-at-a-time loop over the supporting
handlers in plan order. -/
theorem parallel_sequential_equivalent (env : AgentEnv) (primary : AgentType)
    (supporting : List AgentType) (t : Nat) :
    execute_agents env
      { primary_agent := primary, supporting_agents := supporting,
        execution_strategy := ExecutionStrategy.parallel, estimated_time_ms := t }
    = execute_agents env
      { primary_agent := primary, supporting_agents := supporting,
        execution_strategy := ExecutionStrategy.sequential, estimated_time_ms := t } := by
  unfold execute_agents
  cases env primary <;> rfl

/-- Each action of the loop lands in exactly one of the two outcome lists:
together (as a multiset) they are exactly the input actions. -/
theorem loop_outcome_partition (env : ExecEnv) (l : List StrategyAction) :
    (((execute_actions_loop env l).1.map (fun x => x.action)) ++
     ((execute_actions_loop env l).2.1.map (fun x => x.action))).Perm l := by
  induction l with
  | nil => simp [execute_actions_loop]
  | cons a rest ih =>
    cases h : (execute_action env a).1 with
    | ok result_id =>
      simp only [execute_actions_loop, h]
      simpa using ih.cons a
    | error e =>
      simp only [execute_actions_loop, h, List.map_cons]
      exact List.perm_middle.trans (ih.cons a)

/-- The per-action loop emits only venue-call events: no `mark_executing`
and no `complete_strategy` call happens inside it. -/
theorem execute_action_no_admin (env : ExecEnv) (a : StrategyAction) :
    countMark (execute_action env a).2 = 0 ∧ countComplete (execute_action env a).2 = 0 := by
  simp only [execute_action, execute_crypto_action, execute_stock_action, execute_nft_action]
  split_ifs <;>
    first
      | (split <;> simp [countMark, countComplete, isMarkEvent, isCompleteEvent])
      | simp [countMark, countComplete, isMarkEvent, isCompleteEvent]

/-- No `mark_executing` or `complete_strategy` call happens in the action loop. -/
theorem loop_no_admin (env : ExecEnv) (l : List StrategyAction) :
    countMark (execute_actions_loop env l).2.2 = 0
    ∧ countComplete (execute_actions_loop env l).2.2 = 0 := by
  induction l with
  | nil => simp [execute_actions_loop, countMark, countComplete]
  | cons a rest ih =>
    have ha := execute_action_no_admin env a
    cases h : (execute_action env a).1 <;>
      simp only [execute_actions_loop, h, countMark, countComplete,
        List.countP_append] at ha ih ⊢ <;>
      omega

/-- Decomposition of a successful `execute_strategy` run: the report's two
lists are the loop's two lists, and the trace is the `mark_executing` call
followed by the loop's venue events. -/
theorem execute_strategy_ok_parts (env : ExecEnv) (s : ApolloStrategy) (r : ExecutionResult)
    (tr : List ExecEvent) (h : execute_strategy env s = (Except.ok r, tr)) :
    r.executed = (execute_actions_loop env s.actions).1
    ∧ r.failed = (execute_actions_loop env s.actions).2.1
    ∧ tr = ExecEvent.markExecuting s.strategy_id :: (execute_actions_loop env s.actions).2.2 := by
  unfold execute_strategy at h
  cases hm : env.markExecuting s.strategy_id with
  | error e => rw [hm] at h; simp at h
  | ok u =>
    rw [hm] at h
    simp only [Prod.mk.injEq, Except.ok.injEq] at h
    obtain ⟨hr, htr⟩ := h
    subst hr
    exact ⟨rfl, rfl, htr.symm⟩

/-- C1: whenever `execute_strategy` completes (returns a report), every
action of the strategy yields exactly one outcome: the executed and failed
lists jointly have exactly N entries for an N-action strategy, and their
underlying actions are exactly the strategy's actions — no action is
dropped and no failure stops the loop. -/
theorem execute_strategy_outcome_partition (env : ExecEnv) (strategy : ApolloStrategy)
    (r : ExecutionResult) (tr : List ExecEvent)
    (h : execute_strategy env strategy = (Except.ok r, tr)) :
    r.executed.length + r.failed.length = strategy.actions.length
    ∧ ((r.executed.map (fun x => x.action)) ++
       (r.failed.map (fun x => x.action))).Perm strategy.actions := by
  obtain ⟨he, hf, -⟩ := execute_strategy_ok_parts env strategy r tr h
  have hp := loop_outcome_partition env strategy.actions
  rw [he, hf]
  refine ⟨?_, hp⟩
  have hl := hp.length_eq
  simpa using hl

/-- C1 witness at a concrete input: a two-action strategy whose first
action succeeds at the crypto venue and whose second action has an unknown
asset class; the report has one executed and one failed entry. -/
theorem execute_strategy_outcome_partition_witness :
    resultW.executed.length + resultW.failed.length = stratW.actions.length
    ∧ ((resultW.executed.map (fun x => x.action)) ++
       (resultW.failed.map (fun x => x.action))).Perm stratW.actions :=
  execute_strategy_outcome_partition envOk stratW resultW traceW rfl

/-- Decomposition of a successful `report_results` run: the trace is the
`complete_strategy` call, followed by at most a goal-progress update. -/
theorem report_results_ok_trace (env : ExecEnv) (s : ApolloStrategy) (res : ExecutionResult)
    (u : Unit) (tr2 : List ExecEvent) (h : report_results env s res = (Except.ok u, tr2)) :
    ∃ t3, tr2 = ExecEvent.completeStrategy s.strategy_id :: t3
      ∧ countMark t3 = 0 ∧ countComplete t3 = 0 := by
  simp only [report_results] at h
  cases hc : env.completeStrategy s.strategy_id with
  | error e => simp only [hc] at h; simp at h
  | ok v =>
    simp only [hc] at h
    cases hg : s.goal_id with
    | none =>
      simp only [hg, Prod.mk.injEq] at h
      exact ⟨[], h.2.symm, rfl, rfl⟩
    | some gid =>
      simp only [hg] at h
      cases hu : env.updateGoalProgress gid (calculate_new_portfolio_value res)
          (calculate_new_portfolio_value res /
            ((s.target_allocation.lookup "total").getD 1000000) * 100) with
      | error e => simp only [hu] at h; simp at h
      | ok w =>
        simp only [hu, Prod.mk.injEq] at h
        exact ⟨[ExecEvent.updateGoalProgress gid (calculate_new_portfolio_value res)
          (calculate_new_portfolio_value res /
            ((s.target_allocation.lookup "total").getD 1000000) * 100)], h.2.symm, rfl, rfl⟩

/-- Decomposition of a successful `process_user` run: generation, then a
successful strategy execution, then a successful report. -/
theorem process_user_ok_parts (env : ExecEnv) (uid : String) (r : ExecutionResult)
    (tr : List ExecEvent) (h : process_user env uid = (Except.ok r, tr)) :
    ∃ s tr1 tr2, env.generateStrategy uid = Except.ok s
      ∧ execute_strategy env s = (Except.ok r, tr1)
      ∧ (∃ u, report_results env s r = (Except.ok u, tr2))
      ∧ tr = ExecEvent.generateStrategy uid :: (tr1 ++ tr2) := by
  simp only [process_user] at h
  cases hg : env.generateStrategy uid with
  | error e => simp only [hg] at h; simp at h
  | ok s =>
    simp only [hg] at h
    rcases hE : execute_strategy env s with ⟨res1, tr1⟩
    simp only [hE] at h
    cases res1 with
    | error e => simp at h
    | ok result =>
      rcases hR : report_results env s result with ⟨res2, tr2⟩
      simp only [hR] at h
      cases res2 with
      | error e => simp at h
      | ok u =>
        simp only [Prod.mk.injEq, Except.ok.injEq] at h
        obtain ⟨hr, htr⟩ := h
        subst hr
        exact ⟨s, tr1, tr2, rfl, hE, ⟨u, hR⟩, htr.symm⟩

/-- The trace of the auto-execute rebalance path: generation, then
`mark_executing`, then the rebalance strategy's venue events — and no
report step at all. -/
theorem monitor_auto_path (env : ExecEnv) (uid : String) (cv sv : ℚ)
    (p : CompleteFinancialProfile) (s : ApolloStrategy) (rest : List ApolloStrategy)
    (reb : ApolloStrategy)
    (h1 : env.getPortfolioValue uid = Except.ok cv)
    (h2 : env.getTotalValue = Except.ok sv)
    (h3 : env.getCompleteProfile uid = Except.ok p)
    (h4 : p.active_strategies = s :: rest)
    (hd : calculate_drift [("crypto", cv / (cv + sv)), ("stocks", sv / (cv + sv))]
            s.target_allocation > 5 / 100)
    (hg : env.generateStrategy uid = Except.ok reb)
    (hauto : p.goals.any (fun g => g.auto_execute) = true)
    (hm : env.markExecuting reb.strategy_id = Except.ok ()) :
    monitor_and_rebalance env uid =
      (Except.ok (), ExecEvent.generateStrategy uid :: ExecEvent.markExecuting reb.strategy_id ::
        (execute_actions_loop env reb.actions).2.2) := by
  simp only [monitor_and_rebalance]
  simp only [h1, h2, h3, h4, List.head?_cons]
  rw [if_pos hd]
  simp only [hg, hauto, if_true, execute_strategy]
  simp only [hm]

/-- C3 (amended): on the `process_user` path a strategy execution produces
exactly one `mark_executing` and exactly one `complete_strategy` call, in
that order; but on the Rebalance Monitor's auto-execute path the executed
rebalance strategy receives exactly one `mark_executing` call and NO
`complete_strategy` call (the monitor never reports results). -/
theorem strategy_lifecycle_calls :
    (∀ (env : ExecEnv) (uid : String) (r : ExecutionResult) (tr : List ExecEvent),
       process_user env uid = (Except.ok r, tr) →
       countMark tr = 1 ∧ countComplete tr = 1
       ∧ ∃ t1 t2 t3 sid, tr = t1 ++ ExecEvent.markExecuting sid ::
           (t2 ++ ExecEvent.completeStrategy sid :: t3))
    ∧ (∀ (env : ExecEnv) (uid : String) (cv sv : ℚ) (p : CompleteFinancialProfile)
         (s : ApolloStrategy) (rest : List ApolloStrategy) (reb : ApolloStrategy),
       env.getPortfolioValue uid = Except.ok cv → env.getTotalValue = Except.ok sv →
       env.getCompleteProfile uid = Except.ok p → p.active_strategies = s :: rest →
       calculate_drift [("crypto", cv / (cv + sv)), ("stocks", sv / (cv + sv))]
         s.target_allocation > 5 / 100 →
       env.generateStrategy uid = Except.ok reb →
       p.goals.any (fun g => g.auto_execute) = true →
       env.markExecuting reb.strategy_id = Except.ok () →
       countMark (monitor_and_rebalance env uid).2 = 1
       ∧ countComplete (monitor_and_rebalance env uid).2 = 0) := by
  constructor
  · intro env uid r tr h
    obtain ⟨s, tr1, tr2, -, hE, ⟨u, hR⟩, htr⟩ := process_user_ok_parts env uid r tr h
    obtain ⟨-, -, htr1⟩ := execute_strategy_ok_parts env s r tr1 hE
    obtain ⟨t3, htr2, hm3, hc3⟩ := report_results_ok_trace env s r u tr2 hR
    obtain ⟨hlm, hlc⟩ := loop_no_admin env s.actions
    subst htr htr1 htr2
    refine ⟨?_, ?_, [ExecEvent.generateStrategy uid],
      (execute_actions_loop env s.actions).2.2, t3, s.strategy_id, by simp⟩
    · simp only [countMark, isMarkEvent, List.countP_cons, List.countP_append,
        Bool.false_eq_true, eq_self_iff_true, if_false, if_true] at hlm hm3 ⊢
      omega
    · simp only [countComplete, isCompleteEvent, List.countP_cons, List.countP_append,
        Bool.false_eq_true, eq_self_iff_true, if_false, if_true] at hlc hc3 ⊢
      omega
  · intro env uid cv sv p s rest reb h1 h2 h3 h4 hd hg hauto hm
    rw [monitor_auto_path env uid cv sv p s rest reb h1 h2 h3 h4 hd hg hauto hm]
    obtain ⟨hlm, hlc⟩ := loop_no_admin env reb.actions
    constructor
    · simp only [countMark, isMarkEvent, List.countP_cons,
        Bool.false_eq_true, eq_self_iff_true, if_false, if_true] at hlm ⊢
      omega
    · simp only [countComplete, isCompleteEvent, List.countP_cons,
        Bool.false_eq_true, eq_self_iff_true, if_false, if_true] at hlc ⊢
      omega

/-- The concrete tick of `envAuto` has drift 1/2, above the 5% threshold. -/
theorem drift_envAuto :
    calculate_drift [("crypto", (1:ℚ) / (1 + 1)), ("stocks", (1:ℚ) / (1 + 1))]
      stratReb.target_allocation > 5 / 100 := by
  simp [calculate_drift, stratReb]
  rw [abs_of_nonneg (show (0:ℚ) ≤ ((1:ℚ)+1)⁻¹ by norm_num)]
  norm_num

/-- C3 (counterexample): a concrete auto-execute rebalance tick on which
every collaborator call succeeds; the monitor completes the execution with
exactly one `mark_executing` call but ZERO `complete_strategy` calls,
contrary to the claim that every execution — including the monitor's
auto-execute path — receives one of each. -/
theorem rebalance_auto_no_complete_cex :
    (monitor_and_rebalance envAuto "u1").1 = Except.ok ()
    ∧ countMark (monitor_and_rebalance envAuto "u1").2 = 1
    ∧ countComplete (monitor_and_rebalance envAuto "u1").2 = 0 := by
  rw [monitor_auto_path envAuto "u1" 1 1 profAuto stratReb [] stratReb
    rfl rfl rfl rfl drift_envAuto rfl rfl rfl]
  exact ⟨rfl, rfl, rfl⟩

/-- C3 witness at concrete inputs: a successful `process_user` run whose
trace is [generate, mark, venue order, complete], and a concrete
auto-execute rebalance tick. -/
theorem strategy_lifecycle_calls_witness :
    (countMark tracePU = 1 ∧ countComplete tracePU = 1
      ∧ ∃ t1 t2 t3 sid, tracePU = t1 ++ ExecEvent.markExecuting sid ::
          (t2 ++ ExecEvent.completeStrategy sid :: t3))
    ∧ (countMark (monitor_and_rebalance envAuto "u1").2 = 1
       ∧ countComplete (monitor_and_rebalance envAuto "u1").2 = 0) :=
  ⟨strategy_lifecycle_calls.1 envOk "u1" resultW tracePU rfl,
   strategy_lifecycle_calls.2 envAuto "u1" 1 1 profAuto stratReb [] stratReb
     rfl rfl rfl rfl drift_envAuto rfl rfl rfl⟩

/-- On a monitor tick whose collaborator reads succeed and whose profile
has an active strategy, a strategy generation is requested exactly when the
crypto drift exceeds the 5% threshold strictly. -/
theorem monitor_trigger_mem_iff (env : ExecEnv) (uid : String) (cv sv : ℚ)
    (p : CompleteFinancialProfile) (s : ApolloStrategy) (rest : List ApolloStrategy)
    (h1 : env.getPortfolioValue uid = Except.ok cv)
    (h2 : env.getTotalValue = Except.ok sv)
    (h3 : env.getCompleteProfile uid = Except.ok p)
    (h4 : p.active_strategies = s :: rest) :
    ExecEvent.generateStrategy uid ∈ (monitor_and_rebalance env uid).2 ↔
      calculate_drift [("crypto", cv / (cv + sv)), ("stocks", sv / (cv + sv))]
        s.target_allocation > 5 / 100 := by
  simp only [monitor_and_rebalance, h1, h2, h3, h4, List.head?_cons]
  by_cases hd : calculate_drift [("crypto", cv / (cv + sv)), ("stocks", sv / (cv + sv))]
      s.target_allocation > 5 / 100
  · rw [if_pos hd]
    simp only [hd, iff_true]
    cases hg : env.generateStrategy uid with
    | error e => simp
    | ok reb =>
      cases hauto : p.goals.any (fun g => g.auto_execute) with
      | false => simp
      | true =>
        simp only [if_true]
        cases ht : (execute_strategy env reb).1 <;> simp
  · rw [if_neg hd]
    simp [hd]

/-- C6: drift is computed from the two "crypto" entries alone (any two
allocation snapshots agreeing on "crypto" give identical drift, whatever
their other axes hold), and a monitor tick triggers a rebalance (requests a
strategy generation) if and only if drift is STRICTLY greater than 5% —
drift exactly at the threshold does not trigger. -/
theorem drift_single_axis_threshold :
    (∀ c1 t1 c2 t2 : List (String × ℚ),
       c1.lookup "crypto" = c2.lookup "crypto" → t1.lookup "crypto" = t2.lookup "crypto" →
       calculate_drift c1 t1 = calculate_drift c2 t2)
    ∧ (∀ (env : ExecEnv) (uid : String) (cv sv : ℚ) (p : CompleteFinancialProfile)
         (s : ApolloStrategy) (rest : List ApolloStrategy),
       env.getPortfolioValue uid = Except.ok cv → env.getTotalValue = Except.ok sv →
       env.getCompleteProfile uid = Except.ok p → p.active_strategies = s :: rest →
       (ExecEvent.generateStrategy uid ∈ (monitor_and_rebalance env uid).2 ↔
        calculate_drift [("crypto", cv / (cv + sv)), ("stocks", sv / (cv + sv))]
          s.target_allocation > 5 / 100)) := by
  constructor
  · intro c1 t1 c2 t2 hc ht
    unfold calculate_drift
    rw [hc, ht]
  · intro env uid cv sv p s rest h1 h2 h3 h4
    exact monitor_trigger_mem_iff env uid cv sv p s rest h1 h2 h3 h4

/-- C6 witness at concrete inputs: two snapshot pairs agreeing on "crypto"
but differing elsewhere, and a concrete boundary tick (current crypto
weight 1/20 against a 2/20 target: drift exactly 5%). -/
theorem drift_single_axis_threshold_witness :
    calculate_drift [("crypto", (1:ℚ)/2), ("stocks", (1:ℚ)/2)]
        [("crypto", (3:ℚ)/10), ("bonds", (7:ℚ)/10)]
      = calculate_drift [("crypto", (1:ℚ)/2)] [("crypto", (3:ℚ)/10)]
    ∧ (ExecEvent.generateStrategy "u1" ∈ (monitor_and_rebalance envBoundary "u1").2 ↔
       calculate_drift [("crypto", (1:ℚ) / (1 + 19)), ("stocks", (19:ℚ) / (1 + 19))]
         stratBoundary.target_allocation > 5 / 100) :=
  ⟨drift_single_axis_threshold.1 _ _ _ _ rfl rfl,
   drift_single_axis_threshold.2 envBoundary "u1" 1 19 profBoundary stratBoundary []
     rfl rfl rfl rfl⟩

/-- C8: an action whose asset class is unrecognized fails immediately with
an `UnsupportedAssetClass` classification error and an empty venue trace
(no venue call attempted); a collectible ("nft") action with an
unrecognized action kind fails with `UnsupportedAction`, also without any
venue call. -/
theorem unsupported_classification (env : ExecEnv) :
    (∀ a : StrategyAction, a.asset_class ≠ "crypto" → a.asset_class ≠ "stocks" →
       a.asset_class ≠ "nft" →
       execute_action env a = (Except.error (ExecError.unsupportedAssetClass a.asset_class), []))
    ∧ (∀ a : StrategyAction, a.asset_class = "nft" → a.action_type ≠ "breed" →
       a.action_type ≠ "buy" → a.action_type ≠ "lock_collateral" →
       execute_action env a = (Except.error (ExecError.unsupportedAction a.action_type), [])) := by
  constructor
  · intro a h1 h2 h3
    simp [execute_action, h1, h2, h3]
  · intro a h1 h2 h3 h4
    simp [execute_action, execute_nft_action, h1, h2, h3, h4]

/-- C8 witness at concrete inputs: the spec's "bond" action and a
collectible action with kind "stake". -/
theorem unsupported_classification_witness :
    execute_action envOk actBond = (Except.error (ExecError.unsupportedAssetClass "bond"), [])
    ∧ execute_action envOk actNftStake = (Except.error (ExecError.unsupportedAction "stake"), []) :=
  ⟨(unsupported_classification envOk).1 actBond (by decide) (by decide) (by decide),
   (unsupported_classification envOk).2 actNftStake rfl (by decide) (by decide) (by decide)⟩

/-- C9: for an equity ("stocks") action, the executor converts the USD
amount to a share quantity at the hard-coded $100/share reference price
(quantity = amount / 100), places exactly one market day order with that
quantity at the brokerage, and returns the brokerage's order identifier. -/
theorem stock_action_reference_price (env : ExecEnv) (a : StrategyAction) (order_id : String)
    (hclass : a.asset_class = "stocks")
    (hvenue : env.brokeragePlaceOrder
        { symbol := a.symbol, side := a.side, quantity := a.amount / 100,
          order_type := "market", limit_price := none, stop_price := none,
          time_in_force := "day" } = Except.ok order_id) :
    execute_action env a =
      (Except.ok order_id,
       [ExecEvent.brokerageOrder
         { symbol := a.symbol, side := a.side, quantity := a.amount / 100,
           order_type := "market", limit_price := none, stop_price := none,
           time_in_force := "day" }]) := by
  simp [execute_action, execute_stock_action, hclass, hvenue]

/-- C9 witness at a concrete input: a $1000 SPY buy becomes a 10-share
market day order and returns the brokerage id. -/
theorem stock_action_reference_price_witness :
    execute_action envOk actStock =
      (Except.ok "ord1", [ExecEvent.brokerageOrder orderStock]) :=
  stock_action_reference_price envOk actStock "ord1" rfl rfl
